import Mathlib

/-!
Shallow embedding of the `rsexcept` macro from `src/lib.rs`.

The macro expands to:
  let old_hook = std::panic::take_hook();
  std::panic::set_hook(Box::new(|_| \x7b\x7d));
  match std::panic::catch_unwind(|| body) with
    Ok(v) => v,
    Err(e) => \x7b
      std::panic::set_hook(old_hook);
      if let Some(p1) = e.downcast_ref::<T1>() then handler1
      else if let Some(p2) = e.downcast_ref::<T2>() then handler2
      ...
      else std::panic::resume_unwind(e)
    \x7d

We model the closed universe of payload types occurring in the crate and its
tests, the exact-type-identity downcast, the ordered if-let dispatch chain,
and the process-wide hook as explicit state threaded through the construct,
together with an event trace recording the order of hook mutations, handler
body invocations and re-raises.
-/

set_option autoImplicit false

deriving instance DecidableEq for Except

/-- Runtime type identities (Rust `TypeId`) for the payload types used by the
crate and its tests. A reference type is a distinct identity from the
referent type, exactly as in Rust. -/
inductive Ty where
  | tI32
  | tF64
  | tRefF64
  | tStr
  | tStrSlice
  deriving DecidableEq

/-- Dynamically typed panic payloads (the `Box<dyn Any + Send>` carried by an
unwinding panic). One constructor per runtime type identity. `f64` values are
modelled as rationals; the construct only carries them, never computes. -/
inductive Payload where
  | vI32 (n : Int)
  | vF64 (x : Rat)
  | vRefF64 (x : Rat)
  | vStr (s : String)
  | vStrSlice (xs : List String)
  deriving DecidableEq

/-- The dynamic type identity of a payload. -/
def Payload.tyOf : Payload → Ty
  | .vI32 _ => .tI32
  | .vF64 _ => .tF64
  | .vRefF64 _ => .tRefF64
  | .vStr _ => .tStr
  | .vStrSlice _ => .tStrSlice

/-- The Lean type a payload of a given runtime type identity narrows to. -/
def Ty.interp : Ty → Type
  | .tI32 => Int
  | .tF64 => Rat
  | .tRefF64 => Rat
  | .tStr => String
  | .tStrSlice => List String

/-- Model of `e.downcast_ref::<T>()`: succeeds, yielding the narrowed value,
exactly when the declared type identity equals the payload dynamic type.
No coercion: a plain `f64` payload does not downcast to `&f64`. -/
def downcastRef : (t : Ty) → Payload → Option t.interp
  | .tI32, .vI32 n => some n
  | .tF64, .vF64 x => some x
  | .tRefF64, .vRefF64 x => some x
  | .tStr, .vStr s => some s
  | .tStrSlice, .vStrSlice xs => some xs
  | _, _ => none

/-- One `type, pattern => expr` arm of the catch chain: a declared type
identity, the structural pattern as a predicate on the narrowed value, and
the handler body, which may itself abort (return `Except.error`). -/
structure HandlerEntry (α : Type) where
  ty : Ty
  pat : ty.interp → Bool
  body : ty.interp → Except Payload α

/-- Process-wide default abort-reporting hook values. `noop` is the silent
hook the construct installs; `custom n` stands for arbitrary caller hooks. -/
inductive Hook where
  | standard
  | noop
  | custom (n : Nat)
  deriving DecidableEq

/-- Trace events recording the order of observable actions of one invocation
of the construct. -/
inductive Event where
  | setHookNoop
  | restoreHook
  | runBody (i : Nat)
  | resumeUnwind
  deriving DecidableEq

/-- The one `if let`-arm test: `if let Some(p) = e.downcast_ref::<T>()`.
Returns the handler body result when the declared type equals the payload
dynamic type and the structural pattern accepts the narrowed value. -/
def applyEntry {α : Type} (p : Payload) (e : HandlerEntry α) : Option (Except Payload α) :=
  match downcastRef e.ty p with
  | some v => if e.pat v then some (e.body v) else none
  | none => none

/-- Placeholder arm used with `List.getD`; its pattern rejects everything, so
it never matches any payload. -/
def dummyEntry {α : Type} : HandlerEntry α :=
  ⟨Ty.tI32, fun _ => false, fun _ => Except.error (Payload.vI32 0)⟩

/-- The expanded `if let ... else if let ... else` cascade, walking the chain
in declaration order from position `i`; yields the index of the first arm
whose type and pattern both accept, with its body result, or `none` when the
chain is exhausted. -/
def dispatchFrom {α : Type} (p : Payload) : Nat → List (HandlerEntry α) → Option (Nat × Except Payload α)
  | _, [] => none
  | i, e :: rest =>
    match applyEntry p e with
    | some r => some (i, r)
    | none => dispatchFrom p (i + 1) rest

/-- Spec-level `dispatch(payload, chain)`: `some` is `Matched`, `none` is
`Unmatched`. -/
def dispatch {α : Type} (p : Payload) (chain : List (HandlerEntry α)) : Option (Nat × Except Payload α) :=
  dispatchFrom p 0 chain

/-- Result of one invocation of the construct: the outcome (`Except.error`
is an abort escaping the construct), the hook installed afterwards, and the
event trace. -/
structure RunResult (α : Type) where
  outcome : Except Payload α
  finalHook : Hook
  events : List Event

/-- The whole construct. `comp` is the result of running the try block under
`catch_unwind` (`Except.error` = it panicked with that payload), `chain` the
catch arms in declaration order, `h0` the hook installed when the construct
starts. Mirrors the macro expansion line by line: take the old hook, install
the no-op hook, run the block; on `Ok` return the value (the macro does not
restore the hook here); on `Err` restore the old hook, then run the if-let
cascade, re-raising the payload when no arm matches. -/
def rsexcept {α : Type} (comp : Except Payload α) (chain : List (HandlerEntry α)) (h0 : Hook) : RunResult α :=
  match comp with
  | Except.ok v => ⟨Except.ok v, Hook.noop, [Event.setHookNoop]⟩
  | Except.error e =>
    match dispatch e chain with
    | some (i, r) => ⟨r, h0, [Event.setHookNoop, Event.restoreHook, Event.runBody i]⟩
    | none => ⟨Except.error e, h0, [Event.setHookNoop, Event.restoreHook, Event.resumeUnwind]⟩

/-- Number of handler-body invocations recorded in a trace. -/
def bodyRuns (evs : List Event) : Nat :=
  evs.countP fun ev =>
    match ev with
    | Event.runBody _ => true
    | _ => false

/-- Number of hook restorations recorded in a trace. -/
def restoreCount (evs : List Event) : Nat :=
  evs.countP fun ev =>
    match ev with
    | Event.restoreHook => true
    | _ => false

/-- A successful downcast pins the payload dynamic type to the declared
type. -/
theorem downcastRef_tyOf {t : Ty} {p : Payload} {v : t.interp}
    (h : downcastRef t p = some v) : p.tyOf = t := by
  cases t <;> cases p <;> simp_all [downcastRef, Payload.tyOf]

/-- Dispatch from position `i` finds arm `j` when every earlier arm rejects
and arm `j` accepts. -/
theorem dispatchFrom_eq_of_first {α : Type} (p : Payload) (chain : List (HandlerEntry α)) :
    ∀ (i j : Nat) (r : Except Payload α),
      j < chain.length →
      (∀ k, k < j → applyEntry p (chain.getD k dummyEntry) = none) →
      applyEntry p (chain.getD j dummyEntry) = some r →
      dispatchFrom p i chain = some (i + j, r) := by
  induction chain with
  | nil =>
    intro i j r hj _ _
    exact absurd hj (Nat.not_lt_zero j)
  | cons e rest ih =>
    intro i j r hj hskip hhit
    cases j with
    | zero =>
      have he : applyEntry p e = some r := hhit
      simp [dispatchFrom, he]
    | succ j =>
      have h0 : applyEntry p e = none := hskip 0 (Nat.succ_pos j)
      have hrest := ih (i + 1) j r (Nat.lt_of_succ_lt_succ hj)
        (fun k hk => hskip (k + 1) (Nat.succ_lt_succ hk)) hhit
      simp [dispatchFrom, h0, hrest]
      omega

/-- Dispatch returns `none` when every arm rejects the payload. -/
theorem dispatchFrom_eq_none {α : Type} (p : Payload) (chain : List (HandlerEntry α)) :
    ∀ (i : Nat),
      (∀ k, k < chain.length → applyEntry p (chain.getD k dummyEntry) = none) →
      dispatchFrom p i chain = none := by
  induction chain with
  | nil =>
    intro i _
    rfl
  | cons e rest ih =>
    intro i hall
    have h0 : applyEntry p e = none := hall 0 (Nat.succ_pos rest.length)
    have hrest := ih (i + 1) (fun k hk => hall (k + 1) (Nat.succ_lt_succ hk))
    simp [dispatchFrom, h0, hrest]

/-- Shifting the starting position shifts the reported index and nothing
else. -/
theorem dispatchFrom_shift {α : Type} (p : Payload) (chain : List (HandlerEntry α)) :
    ∀ (i : Nat),
      dispatchFrom p (i + 1) chain
        = Option.map (fun q => (q.1 + 1, q.2)) (dispatchFrom p i chain) := by
  induction chain with
  | nil =>
    intro i
    rfl
  | cons e rest ih =>
    intro i
    cases hae : applyEntry p e with
    | some r => simp [dispatchFrom, hae]
    | none => simp [dispatchFrom, hae, ih (i + 1)]

/-- Chain of the `no_panic` test: `i32, i => i + 12`. -/
def bindChain : List (HandlerEntry Int) :=
  [⟨Ty.tI32, fun _ => true, fun (i : Int) => Except.ok (i + 12)⟩]

/-- Chain of the `one_arm` test: `&str, _ => 42`. -/
def oneArmChain : List (HandlerEntry Int) :=
  [⟨Ty.tStr, fun _ => true, fun _ => Except.ok 42⟩]

/-- Chain of the `multi_arm` test: the `i32` arm panics, then `&f64 => 65`,
`f64 => 42`, `&str => 87`. -/
def multiArmChain : List (HandlerEntry Int) :=
  [⟨Ty.tI32, fun _ => true, fun _ => Except.error (Payload.vStr "Nope!")⟩,
   ⟨Ty.tRefF64, fun _ => true, fun _ => Except.ok 65⟩,
   ⟨Ty.tF64, fun _ => true, fun _ => Except.ok 42⟩,
   ⟨Ty.tStr, fun _ => true, fun _ => Except.ok 87⟩]

/-- Structural pattern of the arm `&[&str], ["uh", s, ..]`. -/
def patUh : List String → Bool
  | "uh" :: _ :: _ => true
  | _ => false

/-- Body of the arm `&[&str], ["uh", s, ..] => s.to_string()`. -/
def bodyUh : List String → Except Payload String
  | _ :: s :: _ => Except.ok s
  | _ => Except.error (Payload.vStr "unreachable")

/-- Structural pattern of the arm `&[&str], ["this", h, t @ ..]`. -/
def patThis : List String → Bool
  | "this" :: _ :: _ => true
  | _ => false

/-- Body of the arm `&[&str], ["this", h, t @ ..] => format(h, "_", t[1])`;
the `t[1]` index panics when `t` is too short, as in Rust. -/
def bodyThis : List String → Except Payload String
  | _ :: h :: t =>
    match t.get? 1 with
    | some x => Except.ok (h ++ "_" ++ x)
    | none => Except.error (Payload.vStr "index out of bounds")
  | _ => Except.error (Payload.vStr "unreachable")

/-- Arm `&[&str], ["uh", s, ..] => s.to_string()` of the `patterns` test. -/
def armUh : HandlerEntry String :=
  ⟨Ty.tStrSlice, patUh, bodyUh⟩

/-- Arm `&[&str], ["this", h, t @ ..] => ...` of the `patterns` test. -/
def armThis : HandlerEntry String :=
  ⟨Ty.tStrSlice, patThis, bodyThis⟩

/-- Chain of the `patterns` test. -/
def patternsChain : List (HandlerEntry String) :=
  [⟨Ty.tI32, fun _ => true, fun _ => Except.error (Payload.vStr "Nope!")⟩,
   ⟨Ty.tStr, fun _ => true, fun s => Except.ok s⟩,
   armUh,
   armThis]

/-- Payload of the `patterns` test: `&ARR[1..]`. -/
def patternsPayload : Payload :=
  Payload.vStrSlice ["this", "is", "a", "array"]

/-- Inner chain of the `panic_propagate` test, extended with a sibling `&str`
arm that would accept the handler abort payload, showing it is never
consulted. -/
def innerPropChain : List (HandlerEntry String) :=
  [⟨Ty.tI32, fun _ => true, fun _ => Except.error (Payload.vStr "Catch me")⟩,
   ⟨Ty.tStr, fun _ => true, fun _ => Except.ok "sibling must not run"⟩]

/-- Outer chain of the `panic_propagate` test:
`&str, s => format(quote, s, quote, "? Caught you!")`. -/
def outerPropChain : List (HandlerEntry String) :=
  [⟨Ty.tStr, fun _ => true, fun (s : String) => Except.ok ("\"" ++ s ++ "\"? Caught you!")⟩]

/-- C1: the claim fails on the code. When the protected computation completes
normally, the expansion returns the value without running `set_hook(old_hook)`
(that call sits only in the `Err` branch), so the silent no-op hook stays
installed: evaluated at the `no_panic` test inputs with initial hook
`custom 0`, the final hook is `noop`, differs from the initial hook, and the
trace contains zero restorations rather than exactly one. -/
theorem hook_left_suppressed_on_success :
    (rsexcept (Except.ok (86 : Int)) bindChain (Hook.custom 0)).finalHook = Hook.noop
    ∧ Hook.noop ≠ Hook.custom 0
    ∧ restoreCount (rsexcept (Except.ok (86 : Int)) bindChain (Hook.custom 0)).events = 0 := by
  exact ⟨rfl, by decide, rfl⟩

/-- C2: dispatch walks the chain in declaration order and the construct
outcome is the body result of the first arm whose declared type equals the
payload dynamic type and whose structural pattern accepts the narrowed value,
regardless of any later arm; and type identity is strict, with no coercion: a
plain-float payload never matches an arm declared at reference-to-float. The
witness instantiates the floating-point 6.54 example with result 42. -/
theorem first_match_wins {α : Type} (p : Payload) (chain : List (HandlerEntry α))
    (j : Nat) (r : Except Payload α) (h0 : Hook)
    (hj : j < chain.length)
    (hskip : ∀ k, k < j → applyEntry p (chain.getD k dummyEntry) = none)
    (hhit : applyEntry p (chain.getD j dummyEntry) = some r) :
    (rsexcept (Except.error p) chain h0).outcome = r
    ∧ ∀ (x : Rat) (q : Rat → Bool) (b : Rat → Except Payload α),
        applyEntry (Payload.vF64 x) (⟨Ty.tRefF64, q, b⟩ : HandlerEntry α) = none := by
  have hd := dispatchFrom_eq_of_first p chain 0 j r hj hskip hhit
  constructor
  · simp [rsexcept, dispatch, hd]
  · intro x q b
    rfl

/-- C2 witness: the `multi_arm` test. Payload is the float 6.54; the `i32`
arm and the `&f64` arm reject on type identity, the plain `f64` arm matches,
and the construct result is 42. -/
theorem first_match_wins_witness :
    (2 < multiArmChain.length
      ∧ (∀ k, k < 2 →
          applyEntry (Payload.vF64 (654 / 100)) (multiArmChain.getD k dummyEntry) = none)
      ∧ applyEntry (Payload.vF64 (654 / 100)) (multiArmChain.getD 2 dummyEntry)
          = some (Except.ok 42))
    ∧ (rsexcept (Except.error (Payload.vF64 (654 / 100))) multiArmChain Hook.standard).outcome
        = Except.ok 42 := by
  refine ⟨⟨by decide, by decide, by decide⟩, ?_⟩
  exact (first_match_wins (Payload.vF64 (654 / 100)) multiArmChain 2 (Except.ok 42)
    Hook.standard (by decide) (by decide) (by decide)).1

/-- C3: a protected computation completing normally with value v makes the
construct outcome exactly v and no handler body of the chain is executed; in
particular the `no_panic` test: a body returning 86 under the chain binding
an `i32` to i+12 yields 86. -/
theorem no_abort_passthrough {α : Type} (v : α) (chain : List (HandlerEntry α)) (h0 : Hook) :
    (rsexcept (Except.ok v) chain h0).outcome = Except.ok v
    ∧ bodyRuns (rsexcept (Except.ok v) chain h0).events = 0
    ∧ (rsexcept (Except.ok (86 : Int)) bindChain h0).outcome = Except.ok 86 := by
  exact ⟨rfl, rfl, rfl⟩

/-- C4: when every arm rejects the payload, the construct outcome is the
original abort itself — same payload value, hence same dynamic type — and an
enclosing construct applied to that outcome behaves exactly as if applied to
the original abort directly, as though this construct were absent; with the
empty chain, every abort propagates. -/
theorem unmatched_propagates {α : Type} (p : Payload)
    (chain outer : List (HandlerEntry α)) (h0 hOut : Hook)
    (hnone : ∀ k, k < chain.length → applyEntry p (chain.getD k dummyEntry) = none) :
    (rsexcept (Except.error p) chain h0).outcome = Except.error p
    ∧ rsexcept ((rsexcept (Except.error p) chain h0).outcome) outer hOut
        = rsexcept (Except.error p) outer hOut
    ∧ (rsexcept (Except.error p) ([] : List (HandlerEntry α)) h0).outcome = Except.error p := by
  have hd := dispatchFrom_eq_none p chain 0 hnone
  have ho : (rsexcept (Except.error p) chain h0).outcome = Except.error p := by
    simp [rsexcept, dispatch, hd]
  exact ⟨ho, by rw [ho], rfl⟩

/-- C4 witness: a string-slice payload against the `multi_arm` chain, which
declares no slice arm: the abort propagates unchanged and the enclosing
`bindChain` construct sees the original payload. -/
theorem unmatched_propagates_witness :
    (∀ k, k < multiArmChain.length →
      applyEntry (Payload.vStrSlice ["x"]) (multiArmChain.getD k dummyEntry) = none)
    ∧ ((rsexcept (Except.error (Payload.vStrSlice ["x"])) multiArmChain Hook.standard).outcome
        = Except.error (Payload.vStrSlice ["x"])
      ∧ rsexcept ((rsexcept (Except.error (Payload.vStrSlice ["x"])) multiArmChain Hook.standard).outcome)
          bindChain (Hook.custom 3)
        = rsexcept (Except.error (Payload.vStrSlice ["x"])) bindChain (Hook.custom 3)
      ∧ (rsexcept (Except.error (Payload.vStrSlice ["x"])) ([] : List (HandlerEntry Int)) Hook.standard).outcome
        = Except.error (Payload.vStrSlice ["x"])) := by
  refine ⟨by decide, ?_⟩
  exact unmatched_propagates (Payload.vStrSlice ["x"]) multiArmChain bindChain
    Hook.standard (Hook.custom 3) (by decide)

/-- C5: an arm whose declared type matches the payload but whose structural
pattern rejects the narrowed value is skipped and dispatch continues with the
next arm (same or different declared type): prepending such an arm changes
neither the dispatch result beyond the position shift nor the construct
outcome; the `patterns` test instance resolves to "is_array" through the
fourth arm after the third arm of the same slice type rejects on its leading
element. -/
theorem pattern_reject_continues {α : Type} (p : Payload) (e : HandlerEntry α)
    (rest : List (HandlerEntry α)) (i : Nat) (v : e.ty.interp) (h0 : Hook)
    (hdc : downcastRef e.ty p = some v) (hpat : e.pat v = false) :
    dispatchFrom p i (e :: rest) = dispatchFrom p (i + 1) rest
    ∧ (rsexcept (Except.error p) (e :: rest) h0).outcome
        = (rsexcept (Except.error p) rest h0).outcome
    ∧ (rsexcept (Except.error patternsPayload) patternsChain h0).outcome
        = Except.ok "is_array" := by
  have hae : applyEntry p e = none := by
    simp [applyEntry, hdc, hpat]
  refine ⟨by simp [dispatchFrom, hae], ?_, rfl⟩
  have hcons : dispatch p (e :: rest)
      = Option.map (fun q => (q.1 + 1, q.2)) (dispatch p rest) := by
    simp [dispatch, dispatchFrom, hae, dispatchFrom_shift p rest 0]
  cases hd : dispatch p rest with
  | none => simp [rsexcept, hcons, hd]
  | some q => simp [rsexcept, hcons, hd]

/-- C5 witness: the `patterns` test. The slice payload downcast succeeds at
the arm requiring leading element "uh" but the pattern rejects, dispatch
continues to the next slice arm, and the construct result is "is_array". -/
theorem pattern_reject_continues_witness :
    (downcastRef armUh.ty patternsPayload = some ["this", "is", "a", "array"]
      ∧ armUh.pat ["this", "is", "a", "array"] = false)
    ∧ (dispatchFrom patternsPayload 2 [armUh, armThis]
        = dispatchFrom patternsPayload 3 [armThis]
      ∧ (rsexcept (Except.error patternsPayload) [armUh, armThis] Hook.standard).outcome
        = (rsexcept (Except.error patternsPayload) [armThis] Hook.standard).outcome
      ∧ (rsexcept (Except.error patternsPayload) patternsChain Hook.standard).outcome
        = Except.ok "is_array") := by
  refine ⟨⟨rfl, by decide⟩, ?_⟩
  exact pattern_reject_continues patternsPayload armUh [armThis] 2
    ["this", "is", "a", "array"] Hook.standard rfl (by decide)

/-- C6: when the first matching arm body itself aborts with a new payload q,
the construct outcome is that new abort; exactly one handler body ran, so the
new abort was never offered to the remaining arms of the same chain; and an
enclosing construct applied to the outcome behaves exactly as on an abort
carrying q — it observes the new payload, not the original one. -/
theorem handler_abort_propagates {α : Type} (p q : Payload)
    (chain outer : List (HandlerEntry α)) (j : Nat) (h0 hOut : Hook)
    (hj : j < chain.length)
    (hskip : ∀ k, k < j → applyEntry p (chain.getD k dummyEntry) = none)
    (hhit : applyEntry p (chain.getD j dummyEntry) = some (Except.error q)) :
    (rsexcept (Except.error p) chain h0).outcome = Except.error q
    ∧ bodyRuns (rsexcept (Except.error p) chain h0).events = 1
    ∧ rsexcept ((rsexcept (Except.error p) chain h0).outcome) outer hOut
        = rsexcept (Except.error q) outer hOut := by
  have hd := dispatchFrom_eq_of_first p chain 0 j (Except.error q) hj hskip hhit
  have ho : (rsexcept (Except.error p) chain h0).outcome = Except.error q := by
    simp [rsexcept, dispatch, hd]
  have he : (rsexcept (Except.error p) chain h0).events
      = [Event.setHookNoop, Event.restoreHook, Event.runBody j] := by
    simp [rsexcept, dispatch, hd]
  refine ⟨ho, ?_, by rw [ho]⟩
  rw [he]
  rfl

/-- C6 witness: the `panic_propagate` test, with a sibling string arm added
to the inner chain that would accept the handler abort payload "Catch me":
the inner construct still propagates "Catch me" (one body ran, the sibling
was never consulted), and the enclosing construct catches the new payload,
yielding the quoted caught-you string. -/
theorem handler_abort_propagates_witness :
    (0 < innerPropChain.length
      ∧ (∀ k, k < 0 →
          applyEntry (Payload.vI32 62) (innerPropChain.getD k dummyEntry) = none)
      ∧ applyEntry (Payload.vI32 62) (innerPropChain.getD 0 dummyEntry)
          = some (Except.error (Payload.vStr "Catch me")))
    ∧ ((rsexcept (Except.error (Payload.vI32 62)) innerPropChain Hook.standard).outcome
        = Except.error (Payload.vStr "Catch me")
      ∧ bodyRuns (rsexcept (Except.error (Payload.vI32 62)) innerPropChain Hook.standard).events = 1
      ∧ rsexcept ((rsexcept (Except.error (Payload.vI32 62)) innerPropChain Hook.standard).outcome)
          outerPropChain Hook.standard
        = rsexcept (Except.error (Payload.vStr "Catch me")) outerPropChain Hook.standard)
    ∧ (rsexcept ((rsexcept (Except.error (Payload.vI32 62)) innerPropChain Hook.standard).outcome)
        outerPropChain Hook.standard).outcome
      = Except.ok "\"Catch me\"? Caught you!" := by
  refine ⟨⟨by decide, ?_, by decide⟩, ?_, by decide⟩
  · intro k hk
    exact absurd hk (Nat.not_lt_zero k)
  · exact handler_abort_propagates (Payload.vI32 62) (Payload.vStr "Catch me")
      innerPropChain outerPropChain 0 Hook.standard Hook.standard (by decide)
      (fun k hk => absurd hk (Nat.not_lt_zero k)) (by decide)

/-- C7: on every captured-abort path the saved hook is restored first: the
trace is the no-op installation, then the restoration, and only then a
handler body run or the re-raise; exactly one restoration happens and the
hook in effect afterwards — the one reporting a handler abort or a
propagated unmatched abort — is the pre-construct hook. -/
theorem restore_precedes_dispatch {α : Type} (p : Payload)
    (chain : List (HandlerEntry α)) (h0 : Hook) :
    (rsexcept (Except.error p) chain h0).finalHook = h0
    ∧ restoreCount (rsexcept (Except.error p) chain h0).events = 1
    ∧ ∃ tl, (rsexcept (Except.error p) chain h0).events
        = Event.setHookNoop :: Event.restoreHook :: tl
        ∧ ∀ ev ∈ tl, (∃ i, ev = Event.runBody i) ∨ ev = Event.resumeUnwind := by
  cases hd : dispatch p chain with
  | none =>
    refine ⟨by simp [rsexcept, hd], by simp [rsexcept, hd, restoreCount], [Event.resumeUnwind], by simp [rsexcept, hd], ?_⟩
    intro ev hev
    simp only [List.mem_singleton] at hev
    exact Or.inr hev
  | some q =>
    refine ⟨by simp [rsexcept, hd], by simp [rsexcept, hd, restoreCount], [Event.runBody q.1], by simp [rsexcept, hd], ?_⟩
    intro ev hev
    simp only [List.mem_singleton] at hev
    exact Or.inl ⟨q.1, hev⟩

/-- C8: when exactly one arm of the chain accepts the payload, that arm body
runs exactly once — the trace records a single body invocation at its index —
and its result is the outcome of the whole construct; the `one_arm` test:
string payload "Catch me if you can" against the single wildcard string arm
yields 42. -/
theorem single_match_runs_once {α : Type} (p : Payload) (chain : List (HandlerEntry α))
    (j : Nat) (r : Except Payload α) (h0 : Hook)
    (hj : j < chain.length)
    (honly : ∀ k, k < chain.length → k ≠ j → applyEntry p (chain.getD k dummyEntry) = none)
    (hhit : applyEntry p (chain.getD j dummyEntry) = some r) :
    (rsexcept (Except.error p) chain h0).outcome = r
    ∧ (rsexcept (Except.error p) chain h0).events
        = [Event.setHookNoop, Event.restoreHook, Event.runBody j]
    ∧ bodyRuns (rsexcept (Except.error p) chain h0).events = 1 := by
  have hskip : ∀ k, k < j → applyEntry p (chain.getD k dummyEntry) = none :=
    fun k hk => honly k (hk.trans hj) (Nat.ne_of_lt hk)
  have hd := dispatchFrom_eq_of_first p chain 0 j r hj hskip hhit
  have he : (rsexcept (Except.error p) chain h0).events
      = [Event.setHookNoop, Event.restoreHook, Event.runBody j] := by
    simp [rsexcept, dispatch, hd]
  refine ⟨by simp [rsexcept, dispatch, hd], he, ?_⟩
  rw [he]
  rfl

/-- C8 witness: the `one_arm` test: the string payload matches the single
wildcard string arm, whose body runs once and returns 42. -/
theorem single_match_runs_once_witness :
    (0 < oneArmChain.length
      ∧ (∀ k, k < oneArmChain.length → k ≠ 0 →
          applyEntry (Payload.vStr "Catch me if you can") (oneArmChain.getD k dummyEntry) = none)
      ∧ applyEntry (Payload.vStr "Catch me if you can") (oneArmChain.getD 0 dummyEntry)
          = some (Except.ok 42))
    ∧ ((rsexcept (Except.error (Payload.vStr "Catch me if you can")) oneArmChain Hook.standard).outcome
        = Except.ok 42
      ∧ (rsexcept (Except.error (Payload.vStr "Catch me if you can")) oneArmChain Hook.standard).events
        = [Event.setHookNoop, Event.restoreHook, Event.runBody 0]
      ∧ bodyRuns (rsexcept (Except.error (Payload.vStr "Catch me if you can")) oneArmChain Hook.standard).events
        = 1) := by
  refine ⟨⟨by decide, by decide, by decide⟩, ?_⟩
  exact single_match_runs_once (Payload.vStr "Catch me if you can") oneArmChain 0
    (Except.ok 42) Hook.standard (by decide) (by decide) (by decide)

/-- C10: the construct is deterministic: with pure patterns and bodies, as in
this embedding, equal protected computations, equal chains and equal initial
hooks produce equal results — the same outcome, final hook and trace. -/
theorem construct_deterministic {α : Type} (c1 c2 : Except Payload α)
    (ch1 ch2 : List (HandlerEntry α)) (g1 g2 : Hook)
    (hc : c1 = c2) (hch : ch1 = ch2) (hg : g1 = g2) :
    rsexcept c1 ch1 g1 = rsexcept c2 ch2 g2 := by
  rw [hc, hch, hg]

/-- C10 witness: two invocations at the `multi_arm` inputs coincide. -/
theorem construct_deterministic_witness :
    ((Except.error (Payload.vF64 (654 / 100)) : Except Payload Int)
        = Except.error (Payload.vF64 (654 / 100))
      ∧ multiArmChain = multiArmChain
      ∧ Hook.standard = Hook.standard)
    ∧ rsexcept (Except.error (Payload.vF64 (654 / 100))) multiArmChain Hook.standard
      = rsexcept (Except.error (Payload.vF64 (654 / 100))) multiArmChain Hook.standard := by
  refine ⟨⟨rfl, rfl, rfl⟩, ?_⟩
  exact construct_deterministic (Except.error (Payload.vF64 (654 / 100)))
    (Except.error (Payload.vF64 (654 / 100))) multiArmChain multiArmChain
    Hook.standard Hook.standard rfl rfl rfl
